import Mathlib

/-!
Shallow embedding of src/rp_handler.py, the RunPod serverless worker for
ComfyUI.  The worker is single-threaded and fully synchronous: every
external interaction (HTTP probe, prompt submission, history poll, upload,
nudity classification, base64 encoding, filesystem check) is modelled by an
oracle packaged in an `Env` record, and the handler is a pure function of
the environment and the job value.  Uncaught Python exceptions are modelled
by the `PResult.exn` constructor; values returned to the caller by
`PResult.ret`.  The list of `Effect`s records, in order, every external
call the handler performs, so that claims about "no network call" or
"exactly n poll attempts" become statements about that list.
-/

set_option autoImplicit false

/-- JSON-like values exchanged with the ComfyUI HTTP API and the job queue. -/
inductive JValue where
  | null : JValue
  | bool : Bool → JValue
  | num : Int → JValue
  | str : String → JValue
  | arr : List JValue → JValue
  | obj : List (String × JValue) → JValue

/-- First-match association lookup: the access pattern of a Python dict built
from JSON (keys are unique in a real dict, so first match is the match). -/
def lookup : List (String × JValue) → String → Option JValue
  | [], _ => none
  | (k, v) :: rest, key => if k == key then some v else lookup rest key

/-- Python truthiness of a JSON value: None, False, 0, empty string, empty
list and empty dict are falsy, everything else truthy. -/
def pyTruthy : JValue → Bool
  | JValue.null => false
  | JValue.bool b => b
  | JValue.num n => !(n == 0)
  | JValue.str s => !(s == "")
  | JValue.arr xs => !xs.isEmpty
  | JValue.obj kvs => !kvs.isEmpty

/-- Python d.get(key): None (our null) for a missing key, and an
AttributeError when the receiver is not a dict.  Exception text is a
descriptor, not the exact CPython message. -/
def pyGet : JValue → String → Except String JValue
  | JValue.obj kvs, key => Except.ok ((lookup kvs key).getD JValue.null)
  | _, _ => Except.error "AttributeError: get"

/-- Python subscript d[key]: KeyError when the key is missing, TypeError when
the receiver is not a dict. -/
def jobLookup : JValue → String → Except String JValue
  | JValue.obj kvs, key =>
    match lookup kvs key with
    | some v => Except.ok v
    | none => Except.error ("KeyError: " ++ key)
  | _, _ => Except.error "TypeError: subscript"

/-- Embeds return_error (rp_handler.py lines 59-70): the single-field error
envelope returned to the caller. -/
def errEnv (msg : String) : JValue :=
  JValue.obj [("error", JValue.str msg)]

/-- Recognises the error-envelope shape produced by return_error. -/
def isErrorEnvelope : JValue → Bool
  | JValue.obj [("error", JValue.str _)] => true
  | _ => false

/-- Field access on a returned envelope. -/
def vlookup : JValue → String → Option JValue
  | JValue.obj kvs, key => lookup kvs key
  | _, _ => none

/-- Embeds the true_strings list of job_prop_to_bool (line 54). -/
def true_strings : List String := ["true", "t", "yes", "y", "ok", "1"]

/-- Embeds job_prop_to_bool (lines 40-56): None (absent key or null value)
gives false, a bool is returned as is, a string is lowercased, trimmed and
looked up in true_strings, every other type gives false. -/
def job_prop_to_bool (job_input : List (String × JValue)) (propname : String) : Bool :=
  match (lookup job_input propname).getD JValue.null with
  | JValue.null => false
  | JValue.bool b => b
  | JValue.str s => true_strings.contains (s.toLower.trim)
  | _ => false

/-- Boolean prefix test on character lists, used for the Python substring
operator below. -/
def charsLeading : List Char → List Char → Bool
  | [], _ => true
  | _ :: _, [] => false
  | a :: as, b :: bs => a == b && charsLeading as bs

/-- Python sub in s : the substring test used on the upload URL
(line 243, sentinel simulated_uploaded/). -/
def strContainsSub (s sub : String) : Bool :=
  (List.range (s.data.length + 1)).any fun i => charsLeading sub.data (s.data.drop i)

/-- Module constant (line 17). -/
def COMFY_API_AVAILABLE_INTERVAL_MS : Nat := 50

/-- Module constant (line 19). -/
def COMFY_API_AVAILABLE_MAX_RETRIES : Nat := 500

/-- Module constant (line 21). -/
def COMFY_POLLING_INTERVAL_MS : Nat := 250

/-- Module constant (line 23). -/
def COMFY_POLLING_MAX_RETRIES : Nat := 999

/-- Module constant (line 25). -/
def COMFY_HOST : String := "127.0.0.1:8188"

/-- Module constant (line 27). -/
def COMFY_OUTPUT_PATH : String := "/comfyui/output"

/-- Loop body of check_server (lines 85-97).  The oracle gives, for attempt
index i, some status code, or none when requests.get raised a transport
exception (the except branch silently falls through to the sleep, so a
failure is just another non-200 attempt).  Returns the boolean result
together with the number of GET attempts actually performed. -/
def checkServerAux (oracle : Nat → Option Nat) : Nat → Nat → Bool × Nat
  | _, 0 => (false, 0)
  | i, fuel + 1 =>
    match oracle i with
    | some status =>
      if status == 200 then (true, 1)
      else
        let r := checkServerAux oracle (i + 1) fuel
        (r.1, r.2 + 1)
    | none =>
      let r := checkServerAux oracle (i + 1) fuel
      (r.1, r.2 + 1)

/-- Embeds check_server (lines 73-100).  url and delay only feed the real
network call and the sleep, so they do not influence the result; they are
kept to mirror the source signature (defaults retries=50, delay=500). -/
def check_server (oracle : Nat → Option Nat) (url : String) (retries : Nat) (delay : Nat) : Bool × Nat :=
  checkServerAux oracle 0 retries

/-- One entry per external call the handler performs, in order. -/
inductive Effect where
  | probe : Effect
  | submit : JValue → Effect
  | history : Effect
  | upload : Effect
  | detect : Effect
  | b64 : Effect

/-- Recognises a workflow submission (POST /prompt). -/
def isSubmit : Effect → Bool
  | Effect.submit _ => true
  | _ => false

/-- Recognises a history poll (GET /history/id). -/
def isHistory : Effect → Bool
  | Effect.history => true
  | _ => false

/-- Recognises an upload-collaborator call. -/
def isUpload : Effect → Bool
  | Effect.upload => true
  | _ => false

/-- Recognises a classifier call. -/
def isDetect : Effect → Bool
  | Effect.detect => true
  | _ => false

/-- Recognises a base64 encoding of the artifact. -/
def isB64 : Effect → Bool
  | Effect.b64 => true
  | _ => false

/-- Outcome of this side of the world: every external collaborator of the
handler, as oracles.  jsonLoads models Python json.loads on the workflow
string (none = JSONDecodeError); serverOracle the successive requests.get
results inside check_server; queueResult the parsed response of the single
POST /prompt (error = any exception raised inside the try of lines
195-198, queue_workflow included); historyOracle the successive parsed
results of get_history; fileExists the os.path.exists check;
uploadImage, detectNudity and base64Encode the three post-processing
collaborators (error = the call raised). -/
structure Env where
  jsonLoads : String → Option JValue
  serverOracle : Nat → Option Nat
  queueResult : Except String JValue
  historyOracle : Nat → Except String JValue
  fileExists : String → Bool
  uploadImage : JValue → String → Except String String
  detectNudity : String → Except String JValue
  base64Encode : String → Except String String

/-- What the handler hands back: a returned Python dict, or an uncaught
exception that escapes the function. -/
inductive PResult where
  | ret : JValue → PResult
  | exn : String → PResult

/-- Python comfy_job_id in history: key membership, which can only succeed
when the identifier is a string, since JSON object keys are strings. -/
def historyHasKey : JValue → JValue → Bool
  | JValue.str s, JValue.obj kvs => (lookup kvs s).isSome
  | _, _ => false

/-- Python history[comfy_job_id] (lines 210 and 224). -/
def historyEntry : JValue → JValue → Except String JValue
  | JValue.str s, JValue.obj kvs =>
    match lookup kvs s with
    | some v => Except.ok v
    | none => Except.error ("KeyError: " ++ s)
  | _, _ => Except.error "TypeError: history subscript"

/-- The loop-exit test of line 210: comfy_job_id in history and
history[comfy_job_id].get("outputs"), with Python short-circuiting and
truthiness; the .get on a non-dict entry raises inside the try. -/
def historySeen (pid h : JValue) : Except String Bool :=
  if historyHasKey pid h then
    match historyEntry pid h with
    | Except.error e => Except.error e
    | Except.ok entry =>
      match pyGet entry "outputs" with
      | Except.error e => Except.error e
      | Except.ok v => Except.ok (pyTruthy v)
  else
    Except.ok false

/-- Result of the polling loop of lines 204-219. -/
inductive PollOut where
  | found : JValue → PollOut
  | maxed : PollOut
  | failed : String → PollOut

/-- Embeds the while loop of lines 206-215 with its for-else style exit:
fuel is the remaining retry budget, i the index of the next history
request.  Returns the outcome together with the number of get_history
calls actually issued (an attempt that raises still counts as an issued
request).  When the fuel runs out without a break, the while-else of line
216 fires (PollOut.maxed). -/
def pollLoop (hist : Nat → Except String JValue) (pid : JValue) : Nat → Nat → PollOut × Nat
  | _, 0 => (PollOut.maxed, 0)
  | i, fuel + 1 =>
    match hist i with
    | Except.error e => (PollOut.failed e, 1)
    | Except.ok h =>
      match historySeen pid h with
      | Except.error e => (PollOut.failed e, 1)
      | Except.ok true => (PollOut.found h, 1)
      | Except.ok false =>
        let r := pollLoop hist pid (i + 1) fuel
        (r.1, r.2 + 1)

/-- Inner loop of lines 228-229: each image overwrites output_images with
its filename field; a missing filename key raises KeyError (uncaught). -/
def foldImages : List JValue → JValue → Except String JValue
  | [], acc => Except.ok acc
  | img :: rest, _ =>
    match img with
    | JValue.obj ikvs =>
      match lookup ikvs "filename" with
      | some f => foldImages rest f
      | none => Except.error "KeyError: filename"
    | _ => Except.error "TypeError: image subscript"

/-- Outer loop of lines 226-229 over outputs.items().  A node output that
is not a dict cannot contain the key images (per the engine interface the
node outputs are JSON objects), so it is skipped; an images value that is
not a list raises when iterated and indexed. -/
def resolveImages : List (String × JValue) → JValue → Except String JValue
  | [], acc => Except.ok acc
  | (_, nodeOut) :: rest, acc =>
    match nodeOut with
    | JValue.obj nkvs =>
      match lookup nkvs "images" with
      | none => resolveImages rest acc
      | some (JValue.arr imgs) =>
        match foldImages imgs acc with
        | Except.error e => Except.error e
        | Except.ok acc2 => resolveImages rest acc2
      | some _ => Except.error "TypeError: iterating images"
    | _ => resolveImages rest acc

/-- Python str() rendering as used when the resolved filename is
interpolated into the expected path (line 234).  Exact for the two shapes
the handler can produce there: a string filename renders as itself, and
the initial empty dict renders as a brace pair; other JSON shapes (never
produced by a well-formed history) are abbreviated. -/
def pyStr : JValue → String
  | JValue.str s => s
  | JValue.null => "None"
  | JValue.bool true => "True"
  | JValue.bool false => "False"
  | JValue.num n => toString n
  | JValue.arr _ => "[...]"
  | JValue.obj [] => "\x7b\x7d"
  | JValue.obj _ => "\x7b...\x7d"

/-- Base64 step of post-processing (lines 249-251): when the artifact was
not really uploaded (the url contains the sentinel) and the return-b64
flag is set, encode the artifact on disk (an encoding failure escapes the
handler) and append the base64 field; then return the accumulated dict. -/
def postProcessB64 (env : Env) (inputKvs : List (String × JValue)) (localPath url : String)
    (acc : List (String × JValue)) (tr : List Effect) : PResult × List Effect :=
  let awsUploaded := !(strContainsSub url "simulated_uploaded/")
  if !awsUploaded && job_prop_to_bool inputKvs "return-b64" then
    match env.base64Encode localPath with
    | Except.error e => (PResult.exn e, tr ++ [Effect.b64])
    | Except.ok s =>
      (PResult.ret (JValue.obj (acc ++ [("base64", JValue.str s)])), tr ++ [Effect.b64])
  else
    (PResult.ret (JValue.obj acc), tr)

/-- Nudity step of post-processing (lines 247-248): when the return-nsfw
flag is set, classify the artifact (a classifier failure escapes the
handler) and append its findings under nsfw; then the base64 step. -/
def postProcessNsfw (env : Env) (inputKvs : List (String × JValue)) (localPath url : String) :
    PResult × List Effect :=
  if job_prop_to_bool inputKvs "return-nsfw" then
    match env.detectNudity localPath with
    | Except.error e => (PResult.exn e, [Effect.upload, Effect.detect])
    | Except.ok f =>
      postProcessB64 env inputKvs localPath url [("url", JValue.str url), ("nsfw", f)]
        [Effect.upload, Effect.detect]
  else
    postProcessB64 env inputKvs localPath url [("url", JValue.str url)] [Effect.upload]

/-- Embeds the post-processing block (lines 238-253) plus the job["id"]
subscript of line 241.  Upload, classification and encoding run outside
any try, so a raised exception escapes the handler.  The returned dict is
built in insertion order: url, then nsfw, then base64. -/
def postProcess (env : Env) (job : JValue) (inputKvs : List (String × JValue)) (localPath : String) : PResult × List Effect :=
  match jobLookup job "id" with
  | Except.error e => (PResult.exn e, [])
  | Except.ok jid =>
    match env.uploadImage jid localPath with
    | Except.error e => (PResult.exn e, [Effect.upload])
    | Except.ok url => postProcessNsfw env inputKvs localPath url

/-- Embeds lines 221-255 given the history entry of the completed prompt:
read its outputs section, run the filename-overwriting loop, build the
expected path, and either post-process the artifact or return the
artifact-missing envelope.  outputs.items() on a non-dict (or falsy)
outputs value raises an uncaught AttributeError. -/
def finishJob (env : Env) (job : JValue) (inputKvs : List (String × JValue)) (entry : JValue) : PResult × List Effect :=
  match pyGet entry "outputs" with
  | Except.error e => (PResult.exn e, [])
  | Except.ok outputs =>
    match outputs with
    | JValue.obj outKvs =>
      match resolveImages outKvs (JValue.obj []) with
      | Except.error e => (PResult.exn e, [])
      | Except.ok outputImages =>
        let localPath := COMFY_OUTPUT_PATH ++ "/" ++ pyStr outputImages
        if env.fileExists localPath then
          postProcess env job inputKvs localPath
        else
          (PResult.ret (errEnv ("image does not exist in the specified output folder: " ++ localPath)), [])
    | _ => (PResult.exn "AttributeError: items", [])

/-- Embeds the validation prologue (lines 164-185).  job["input"] raises a
KeyError when the key is absent (before the None check of line 168 can
fire); a present null input yields the no-input envelope; a non-dict input
raises on .get; a missing or null workflow yields the no-workflow
envelope; a string workflow is decoded once by json.loads, a decode
failure yielding the invalid-JSON envelope; finally a value that is not a
JSON object yields the must-be-object envelope.  On success returns the
input dict entries and the workflow dict entries. -/
def validateJob (env : Env) (job : JValue) : PResult ⊕ (List (String × JValue) × List (String × JValue)) :=
  match jobLookup job "input" with
  | Except.error e => Sum.inl (PResult.exn e)
  | Except.ok jobInput =>
    match jobInput with
    | JValue.null => Sum.inl (PResult.ret (errEnv "no \x27input\x27 property found on job data"))
    | JValue.obj kvs =>
      match (lookup kvs "workflow").getD JValue.null with
      | JValue.null => Sum.inl (PResult.ret (errEnv "no \x27workflow\x27 property found on job data"))
      | JValue.str s =>
        match env.jsonLoads s with
        | none => Sum.inl (PResult.ret (errEnv "Invalid JSON format in \x27workflow\x27 data"))
        | some w =>
          match w with
          | JValue.obj wkvs => Sum.inr (kvs, wkvs)
          | _ => Sum.inl (PResult.ret (errEnv "\x27workflow\x27 must be a JSON object or JSON-encoded string"))
      | JValue.obj wkvs => Sum.inr (kvs, wkvs)
      | _ => Sum.inl (PResult.ret (errEnv "\x27workflow\x27 must be a JSON object or JSON-encoded string"))
    | _ => Sum.inl (PResult.exn "AttributeError: get")

/-- Embeds lines 187-255 for a validated job: probe the server with the
fixed budget and ignore the result (line 188), submit the workflow
wrapped under the single prompt key (queue_workflow, line 113), extract
prompt_id (both failures caught by the try of line 195), poll for
completion, then resolve and post-process.  The history re-subscript of
line 224 happens outside the polling try, so a failure there would escape
(it cannot, since the loop only breaks when the key is present). -/
def runPipeline (env : Env) (job : JValue) (inputKvs wkvs : List (String × JValue)) : PResult × List Effect :=
  let probe := check_server env.serverOracle ("http://" ++ COMFY_HOST) COMFY_API_AVAILABLE_MAX_RETRIES COMFY_API_AVAILABLE_INTERVAL_MS
  let tr1 := List.replicate probe.2 Effect.probe ++ [Effect.submit (JValue.obj [("prompt", JValue.obj wkvs)])]
  match env.queueResult with
  | Except.error e => (PResult.ret (errEnv ("Error queuing prompt: " ++ e)), tr1)
  | Except.ok queued =>
    match jobLookup queued "prompt_id" with
    | Except.error e => (PResult.ret (errEnv ("Error queuing prompt: " ++ e)), tr1)
    | Except.ok pid =>
      match pollLoop env.historyOracle pid 0 COMFY_POLLING_MAX_RETRIES with
      | (PollOut.failed e, c) =>
        (PResult.ret (errEnv ("Error waiting for image generation: " ++ e)), tr1 ++ List.replicate c Effect.history)
      | (PollOut.maxed, c) =>
        (PResult.ret (errEnv "Max retries reached while waiting for image generation"), tr1 ++ List.replicate c Effect.history)
      | (PollOut.found h, c) =>
        match historyEntry pid h with
        | Except.error e => (PResult.exn e, tr1 ++ List.replicate c Effect.history)
        | Except.ok entry =>
          let fin := finishJob env job inputKvs entry
          (fin.1, tr1 ++ List.replicate c Effect.history ++ fin.2)

/-- Embeds handler (lines 151-255): validate, then run the pipeline. -/
def handler (env : Env) (job : JValue) : PResult × List Effect :=
  match validateJob env job with
  | Sum.inl r => (r, [])
  | Sum.inr (inputKvs, wkvs) => runPipeline env job inputKvs wkvs

/-- Claim-side description (C6): the filename fields of the images of one
node, in order. -/
def imageFilenames (imgs : List JValue) : List JValue :=
  imgs.filterMap fun img =>
    match img with
    | JValue.obj ikvs => lookup ikvs "filename"
    | _ => none

/-- Claim-side description (C6): the filename fields of all images of all
output nodes, in iteration order. -/
def collectFilenames : List (String × JValue) → List JValue
  | [] => []
  | (_, nodeOut) :: rest =>
    (match nodeOut with
     | JValue.obj nkvs =>
       match lookup nkvs "images" with
       | some (JValue.arr imgs) => imageFilenames imgs
       | _ => []
     | _ => []) ++ collectFilenames rest

/-- Claim-side condition (C10): the node output carries no images list with
at least one entry. -/
def nodeHasNoImages : JValue → Bool
  | JValue.obj nkvs =>
    match lookup nkvs "images" with
    | none => true
    | some (JValue.arr []) => true
    | some _ => false
  | _ => true

/-- Claim-side description (C6): the last element of a list, or a default
when the list is empty. -/
def lastD : List JValue → JValue → JValue
  | [], a => a
  | x :: xs, _ => lastD xs x

/-- Shape test: the value is a JSON object. -/
def isObjB : JValue → Bool
  | JValue.obj _ => true
  | _ => false

/-- Shape test: the value is a JSON string. -/
def isStrB : JValue → Bool
  | JValue.str _ => true
  | _ => false

/-- Whether a handler result is a returned error envelope. -/
def isErrorReturn : PResult → Bool
  | PResult.ret v => isErrorEnvelope v
  | PResult.exn _ => false

/-- Environment whose collaborators are never supposed to be reached:
every call fails loudly, json decoding always fails, the probe never
sees the server. -/
def envStub : Env where
  jsonLoads := fun _ => none
  serverOracle := fun _ => none
  queueResult := Except.error "unreachable"
  historyOracle := fun _ => Except.error "unreachable"
  fileExists := fun _ => false
  uploadImage := fun _ _ => Except.error "unreachable"
  detectNudity := fun _ => Except.error "unreachable"
  base64Encode := fun _ => Except.error "unreachable"

/-- Job whose workflow is the string that is not valid JSON. -/
def jobBadWorkflow : JValue :=
  JValue.obj [("input", JValue.obj [("workflow", JValue.str "not json")])]

/-- Job whose input section is present but null. -/
def jobNullInput : JValue :=
  JValue.obj [("input", JValue.null)]

/-- Job whose decoded workflow is a number, not a map. -/
def jobNumWorkflow : JValue :=
  JValue.obj [("input", JValue.obj [("workflow", JValue.num 7)])]

/-- Probe oracle for the check_server witness: two transport failures,
then a 200 response. -/
def oracleThird : Nat → Option Nat :=
  fun i => if i == 2 then some 200 else none

/-- Two output nodes with three images in total, used as the C6 witness. -/
def outsTwoNodes : List (String × JValue) :=
  [("1", JValue.obj [("images", JValue.arr
      [JValue.obj [("filename", JValue.str "a.png")],
       JValue.obj [("filename", JValue.str "b.png")]])]),
   ("2", JValue.obj [("images", JValue.arr
      [JValue.obj [("filename", JValue.str "c.png")]])])]

/-- Workflow of the end-to-end witnesses. -/
def wkvsW : List (String × JValue) := [("3", JValue.obj [("class_type", JValue.str "X")])]

/-- Well-formed job used by the pipeline witnesses. -/
def jobGood : JValue :=
  JValue.obj [("id", JValue.str "job-1"),
              ("input", JValue.obj [("workflow", JValue.obj wkvsW)])]

/-- Environment whose queue accepts the prompt but whose history never
shows the identifier, so the poll budget runs out. -/
def envPollStall : Env :=
  { envStub with
    queueResult := Except.ok (JValue.obj [("prompt_id", JValue.str "abc")])
    historyOracle := fun _ => Except.ok (JValue.obj []) }

/-- Output-node map of the completed witness history. -/
def outsObjW : List (String × JValue) :=
  [("9", JValue.obj [("images", JValue.arr [JValue.obj [("filename", JValue.str "img1.png")]])])]

/-- Witness history: prompt abc completed with one image. -/
def histW : JValue :=
  JValue.obj [("abc", JValue.obj [("outputs", JValue.obj outsObjW)])]

/-- History entry of prompt abc in the witness history. -/
def entryW : JValue := JValue.obj [("outputs", JValue.obj outsObjW)]

/-- Job with both optional flags set (return-b64 through a truthy string). -/
def jobFlags : JValue :=
  JValue.obj [("id", JValue.str "job-1"),
              ("input", JValue.obj [("workflow", JValue.obj wkvsW),
                                    ("return-nsfw", JValue.bool true),
                                    ("return-b64", JValue.bool true)])]

/-- Environment of the happy path: server up at once, prompt queued as abc,
first poll complete, artifact on disk, simulated upload, empty findings. -/
def envHappy : Env where
  jsonLoads := fun _ => none
  serverOracle := fun _ => some 200
  queueResult := Except.ok (JValue.obj [("prompt_id", JValue.str "abc")])
  historyOracle := fun _ => Except.ok histW
  fileExists := fun _ => true
  uploadImage := fun _ _ => Except.ok "simulated_uploaded/img1.png"
  detectNudity := fun _ => Except.ok (JValue.arr [])
  base64Encode := fun _ => Except.ok "QUJD"

/-- Like envHappy, but the artifact file is missing from disk. -/
def envMissing : Env :=
  { envHappy with fileExists := fun _ => false }

/-- Output-node map whose single node reports no images at all. -/
def outsNoImagesW : List (String × JValue) :=
  [("9", JValue.obj [("text", JValue.arr [JValue.str "hi"])])]

/-- History whose completed outputs carry no images list. -/
def histNoImages : JValue :=
  JValue.obj [("abc", JValue.obj [("outputs", JValue.obj outsNoImagesW)])]

/-- History entry of prompt abc in histNoImages. -/
def entryNoImages : JValue := JValue.obj [("outputs", JValue.obj outsNoImagesW)]

/-- Like envMissing, but the history reports output nodes without images. -/
def envNoImages : Env :=
  { envMissing with historyOracle := fun _ => Except.ok histNoImages }

/-- Success envelope of the happy-path witness. -/
def vHappy : JValue :=
  JValue.obj [("url", JValue.str "simulated_uploaded/img1.png"),
              ("nsfw", JValue.arr []),
              ("base64", JValue.str "QUJD")]

/-- Effect list of the happy-path witness run. -/
def trHappy : List Effect :=
  [Effect.probe, Effect.submit (JValue.obj [("prompt", JValue.obj wkvsW)]),
   Effect.history, Effect.upload, Effect.detect, Effect.b64]

/-- C9: job_prop_to_bool is true exactly when the raw value is boolean true
or a string whose lowercased, trimmed form is in the fixed truthy
vocabulary; every other value (absent key, null, false, numbers, lists,
dicts) yields false. -/
theorem job_prop_to_bool_spec (kvs : List (String × JValue)) (p : String) :
    job_prop_to_bool kvs p = true ↔
      lookup kvs p = some (JValue.bool true) ∨
        ∃ s, lookup kvs p = some (JValue.str s) ∧
          true_strings.contains (s.toLower.trim) = true := by
  unfold job_prop_to_bool
  cases h : lookup kvs p with
  | none => simp
  | some v =>
    cases v with
    | null => simp
    | bool b => cases b <;> simp
    | num n => simp
    | str s => simp
    | arr xs => simp
    | obj o => simp

/-- C1: evaluating the handler on a job that has no input key at all: the
subscript of line 164 raises a KeyError before the missing-input check of
line 168 can fire, so the exception escapes instead of an error envelope
(and no external call is made). -/
theorem handler_missing_input_raises (env : Env) :
    handler env (JValue.obj []) = (PResult.exn "KeyError: input", []) := rfl

/-- C2 counterexample: a job with no input key at all does not produce the
InputError envelope the claim promises; the handler raises instead (the
effect list is empty, so indeed no network call happens, but the caller
gets an exception, not an envelope). -/
theorem missing_input_no_envelope :
    isErrorReturn (handler envStub (JValue.obj [])).1 = false ∧
      (handler envStub (JValue.obj [])).2 = [] :=
  ⟨rfl, rfl⟩

/-- C2 (amended): for a job whose input section is present but null, whose
workflow field is absent or null, whose workflow string fails to decode
as JSON (exact message for that case included), or whose decoded workflow
is not a map, the handler returns the corresponding InputError envelope
and performs no external call at all (a job with a missing input section
instead raises, see missing_input_no_envelope). -/
theorem validation_envelope_no_network (env : Env) (job : JValue) (kvs : List (String × JValue)) :
    (jobLookup job "input" = Except.ok JValue.null →
      handler env job = (PResult.ret (errEnv "no \x27input\x27 property found on job data"), [])) ∧
    (jobLookup job "input" = Except.ok (JValue.obj kvs) →
      ((lookup kvs "workflow").getD JValue.null = JValue.null →
        handler env job = (PResult.ret (errEnv "no \x27workflow\x27 property found on job data"), [])) ∧
      (∀ s, lookup kvs "workflow" = some (JValue.str s) → env.jsonLoads s = none →
        handler env job = (PResult.ret (errEnv "Invalid JSON format in \x27workflow\x27 data"), [])) ∧
      (∀ s w, lookup kvs "workflow" = some (JValue.str s) → env.jsonLoads s = some w →
        isObjB w = false →
        handler env job =
          (PResult.ret (errEnv "\x27workflow\x27 must be a JSON object or JSON-encoded string"), [])) ∧
      (∀ w, lookup kvs "workflow" = some w → isObjB w = false → isStrB w = false →
        w ≠ JValue.null →
        handler env job =
          (PResult.ret (errEnv "\x27workflow\x27 must be a JSON object or JSON-encoded string"), []))) := by
  refine ⟨?_, fun hin => ⟨?_, ?_, ?_, ?_⟩⟩
  · intro hin
    simp [handler, validateJob, hin]
  · intro hwf
    simp [handler, validateJob, hin, hwf]
  · intro s hs hj
    simp [handler, validateJob, hin, hs, hj]
  · intro s w hs hj hw
    cases w <;> simp_all [handler, validateJob, isObjB]
  · intro w hw hobj hstr hnull
    cases w <;> simp_all [handler, validateJob, isObjB, isStrB]

/-- C2 witness: the three envelope cases at concrete jobs against the stub
environment, each obtained from the amended theorem. -/
theorem validation_envelope_no_network_witness :
    handler envStub jobNullInput =
        (PResult.ret (errEnv "no \x27input\x27 property found on job data"), []) ∧
      handler envStub jobBadWorkflow =
        (PResult.ret (errEnv "Invalid JSON format in \x27workflow\x27 data"), []) ∧
      handler envStub jobNumWorkflow =
        (PResult.ret (errEnv "\x27workflow\x27 must be a JSON object or JSON-encoded string"), []) :=
  ⟨(validation_envelope_no_network envStub jobNullInput []).1 rfl,
   ((validation_envelope_no_network envStub jobBadWorkflow
      [("workflow", JValue.str "not json")]).2 rfl).2.1 "not json" rfl rfl,
   (((validation_envelope_no_network envStub jobNumWorkflow
      [("workflow", JValue.num 7)]).2 rfl).2.2.2) (JValue.num 7) rfl rfl rfl (by intro h; cases h)⟩

/-- The last element of an appended list, seeded through the left part. -/
theorem lastD_append (xs ys : List JValue) (a : JValue) :
    lastD (xs ++ ys) a = lastD ys (lastD xs a) := by
  induction xs generalizing a with
  | nil => rfl
  | cons x xs ih => simp [lastD, ih]

/-- The inner image loop keeps exactly the last filename of the list. -/
theorem foldImages_lastD (imgs : List JValue) (acc v : JValue)
    (h : foldImages imgs acc = Except.ok v) :
    v = lastD (imageFilenames imgs) acc := by
  induction imgs generalizing acc with
  | nil =>
    simp [foldImages] at h
    simp [imageFilenames, lastD, h]
  | cons img rest ih =>
    cases img with
    | obj ikvs =>
      cases hf : lookup ikvs "filename" with
      | none => simp [foldImages, hf] at h
      | some f =>
        simp only [foldImages, hf] at h
        simpa [imageFilenames, hf, lastD] using ih f h
    | null => simp [foldImages] at h
    | bool b => simp [foldImages] at h
    | num n => simp [foldImages] at h
    | str s => simp [foldImages] at h
    | arr xs => simp [foldImages] at h

/-- The node loop threads the overwritten filename left to right. -/
theorem resolveImages_lastD (outs : List (String × JValue)) (acc v : JValue)
    (h : resolveImages outs acc = Except.ok v) :
    v = lastD (collectFilenames outs) acc := by
  induction outs generalizing acc with
  | nil =>
    simp [resolveImages] at h
    simp [collectFilenames, lastD, h]
  | cons kv rest ih =>
    obtain ⟨k, nodeOut⟩ := kv
    cases nodeOut with
    | obj nkvs =>
      cases hl : lookup nkvs "images" with
      | none =>
        simpa [collectFilenames, hl] using ih acc (by simpa [resolveImages, hl] using h)
      | some imgsVal =>
        cases imgsVal with
        | arr imgs =>
          simp only [resolveImages, hl] at h
          cases hfi : foldImages imgs acc with
          | error e => rw [hfi] at h; simp at h
          | ok acc2 =>
            rw [hfi] at h
            simp only at h
            rw [collectFilenames]
            simp only [hl]
            rw [lastD_append, ← foldImages_lastD imgs acc acc2 hfi]
            exact ih acc2 h
        | null => simp [resolveImages, hl] at h
        | bool b => simp [resolveImages, hl] at h
        | num n => simp [resolveImages, hl] at h
        | str s => simp [resolveImages, hl] at h
        | obj o => simp [resolveImages, hl] at h
    | null => simpa [collectFilenames] using ih acc (by simpa [resolveImages] using h)
    | bool b => simpa [collectFilenames] using ih acc (by simpa [resolveImages] using h)
    | num n => simpa [collectFilenames] using ih acc (by simpa [resolveImages] using h)
    | str s => simpa [collectFilenames] using ih acc (by simpa [resolveImages] using h)
    | arr xs => simpa [collectFilenames] using ih acc (by simpa [resolveImages] using h)

/-- C6: when the resolution loop over the polled outputs succeeds, the
resolved artifact filename is exactly the last filename encountered in
iteration order across all nodes and all images (later entries silently
overwrite earlier ones); no list of outputs is ever built. -/
theorem resolveImages_keeps_last (outs : List (String × JValue)) (v : JValue)
    (h : resolveImages outs (JValue.obj []) = Except.ok v) :
    v = lastD (collectFilenames outs) (JValue.obj []) :=
  resolveImages_lastD outs (JValue.obj []) v h

/-- C6 witness: on the two-node, three-image history the loop resolves to
the last filename. -/
theorem resolveImages_keeps_last_witness :
    JValue.str "c.png" = lastD (collectFilenames outsTwoNodes) (JValue.obj []) :=
  resolveImages_keeps_last outsTwoNodes (JValue.str "c.png") rfl

/-- The probe never performs more attempts than its budget. -/
theorem checkServerAux_count_le (oracle : Nat → Option Nat) (fuel i : Nat) :
    (checkServerAux oracle i fuel).2 ≤ fuel := by
  induction fuel generalizing i with
  | zero => simp [checkServerAux]
  | succ n ih =>
    rcases h : oracle i with _ | st
    · simpa [checkServerAux, h] using Nat.succ_le_succ (ih (i + 1))
    · by_cases h200 : st = 200
      · subst h200; simp [checkServerAux, h]
      · simpa [checkServerAux, h, h200] using Nat.succ_le_succ (ih (i + 1))

/-- The probe reports success exactly when some attempt within the budget
gets a 200 status. -/
theorem checkServerAux_true_iff (oracle : Nat → Option Nat) (fuel i : Nat) :
    (checkServerAux oracle i fuel).1 = true ↔
      ∃ j, j < fuel ∧ oracle (i + j) = some 200 := by
  induction fuel generalizing i with
  | zero => simp [checkServerAux]
  | succ n ih =>
    have shift : (∃ j, j < n ∧ oracle (i + 1 + j) = some 200) ↔
        ∃ j, 0 < j ∧ j < n + 1 ∧ oracle (i + j) = some 200 := by
      constructor
      · rintro ⟨j, hj, hje⟩
        exact ⟨j + 1, by omega, by omega, by rwa [show i + (j + 1) = i + 1 + j by omega]⟩
      · rintro ⟨j, hj0, hj, hje⟩
        obtain ⟨k, rfl⟩ : ∃ k, j = k + 1 := ⟨j - 1, by omega⟩
        exact ⟨k, by omega, by rwa [show i + 1 + k = i + (k + 1) by omega]⟩
    rcases h : oracle i with _ | st
    · rw [show (checkServerAux oracle i (n + 1)).1 = (checkServerAux oracle (i + 1) n).1 by
          simp [checkServerAux, h]]
      rw [ih (i + 1), shift]
      constructor
      · rintro ⟨j, hj0, hj, hje⟩; exact ⟨j, hj, hje⟩
      · rintro ⟨j, hj, hje⟩
        rcases Nat.eq_zero_or_pos j with rfl | hj0
        · rw [Nat.add_zero] at hje; rw [h] at hje; cases hje
        · exact ⟨j, hj0, hj, hje⟩
    · by_cases h200 : st = 200
      · subst h200
        simp only [checkServerAux, h, beq_self_eq_true, if_pos]
        constructor
        · intro _; exact ⟨0, by omega, by simpa using h⟩
        · intro _; trivial
      · rw [show (checkServerAux oracle i (n + 1)).1 = (checkServerAux oracle (i + 1) n).1 by
            simp [checkServerAux, h, h200]]
        rw [ih (i + 1), shift]
        constructor
        · rintro ⟨j, hj0, hj, hje⟩; exact ⟨j, hj, hje⟩
        · rintro ⟨j, hj, hje⟩
          rcases Nat.eq_zero_or_pos j with rfl | hj0
          · rw [Nat.add_zero] at hje; rw [h] at hje
            cases hje; exact absurd rfl h200
          · exact ⟨j, hj0, hj, hje⟩

/-- When no attempt within the budget gets a 200, the probe reports false
after exactly the budgeted number of attempts. -/
theorem checkServerAux_all_fail (oracle : Nat → Option Nat) (fuel i : Nat)
    (hall : ∀ j, j < fuel → oracle (i + j) ≠ some 200) :
    checkServerAux oracle i fuel = (false, fuel) := by
  induction fuel generalizing i with
  | zero => simp [checkServerAux]
  | succ n ih =>
    have hrec : checkServerAux oracle (i + 1) n = (false, n) :=
      ih (i + 1) fun j hj => by
        rw [show i + 1 + j = i + (j + 1) by omega]
        exact hall (j + 1) (by omega)
    rcases h : oracle i with _ | st
    · simp [checkServerAux, h, hrec]
    · have h200 : st ≠ 200 := fun hh => hall 0 (by omega) (by rw [Nat.add_zero, h, hh])
      simp [checkServerAux, h, h200, hrec]

/-- The probe stops at the first attempt that gets a 200: when attempt j is
the first success inside the budget, exactly j + 1 attempts happen. -/
theorem checkServerAux_first_success (oracle : Nat → Option Nat) (fuel i j : Nat)
    (hj : j < fuel) (hsucc : oracle (i + j) = some 200)
    (hmin : ∀ k, k < j → oracle (i + k) ≠ some 200) :
    checkServerAux oracle i fuel = (true, j + 1) := by
  induction fuel generalizing i j with
  | zero => omega
  | succ n ih =>
    cases j with
    | zero =>
      rw [Nat.add_zero] at hsucc
      simp [checkServerAux, hsucc]
    | succ m =>
      have h0 : oracle i ≠ some 200 := fun hh => hmin 0 (by omega) (by rwa [Nat.add_zero])
      have hrec : checkServerAux oracle (i + 1) n = (true, m + 1) :=
        ih (i + 1) m (by omega)
          (by rw [show i + 1 + m = i + (m + 1) by omega]; exact hsucc)
          (fun k hk => by
            rw [show i + 1 + k = i + (k + 1) by omega]
            exact hmin (k + 1) (by omega))
      rcases h : oracle i with _ | st
      · simp [checkServerAux, h, hrec]
      · have h200 : st ≠ 200 := fun hh => h0 (by rw [h, hh])
        simp [checkServerAux, h, h200, hrec]

/-- C4: check_server performs at most its budget of GET attempts, returns
true exactly when some attempt within the budget yields status 200 (and
then stops right after the first such attempt), treats transport failures
(oracle none) as just another unready attempt, and returns false after
exactly the budgeted number of attempts when no attempt yields 200. -/
theorem check_server_spec (oracle : Nat → Option Nat) (url : String) (n delay : Nat) :
    (check_server oracle url n delay).2 ≤ n ∧
      ((check_server oracle url n delay).1 = true ↔ ∃ j, j < n ∧ oracle j = some 200) ∧
      ((∀ j, j < n → oracle j ≠ some 200) → check_server oracle url n delay = (false, n)) ∧
      (∀ j, j < n → oracle j = some 200 → (∀ k, k < j → oracle k ≠ some 200) →
        check_server oracle url n delay = (true, j + 1)) := by
  refine ⟨checkServerAux_count_le oracle n 0, ?_, ?_, ?_⟩
  · simpa using checkServerAux_true_iff oracle n 0
  · intro hall
    exact checkServerAux_all_fail oracle n 0 (by simpa using hall)
  · intro j hj hsucc hmin
    exact checkServerAux_first_success oracle n 0 j hj (by simpa using hsucc)
      (fun k hk => by simpa using hmin k hk)

/-- C4 witness: with two transport failures followed by a 200, a budget of
five attempts stops after the third attempt with a true result. -/
theorem check_server_spec_witness :
    check_server oracleThird "http://127.0.0.1:8188" 5 50 = (true, 3) :=
  (check_server_spec oracleThird "http://127.0.0.1:8188" 5 50).2.2.2 2 (by omega) rfl
    (by decide)

/-- Counting matches inside a replicated list. -/
theorem countP_replicate (p : Effect → Bool) (e : Effect) (n : Nat) :
    List.countP p (List.replicate n e) = if p e then n else 0 := by
  induction n with
  | zero => simp
  | succ k ih =>
    rw [List.replicate_succ, List.countP_cons, ih]
    split <;> simp

/-- When every poll within the budget answers without showing completion,
the loop exhausts the whole budget, issuing one history request per unit
of fuel. -/
theorem pollLoop_maxed (hist : Nat → Except String JValue) (pid : JValue) (fuel i : Nat)
    (hall : ∀ j, j < fuel →
      ∃ h, hist (i + j) = Except.ok h ∧ historySeen pid h = Except.ok false) :
    pollLoop hist pid i fuel = (PollOut.maxed, fuel) := by
  induction fuel generalizing i with
  | zero => simp [pollLoop]
  | succ n ih =>
    obtain ⟨h0, hh0, hs0⟩ := hall 0 (by omega)
    rw [Nat.add_zero] at hh0
    have hrec : pollLoop hist pid (i + 1) n = (PollOut.maxed, n) :=
      ih (i + 1) fun j hj => by
        rw [show i + 1 + j = i + (j + 1) by omega]
        exact hall (j + 1) (by omega)
    simp [pollLoop, hh0, hs0, hrec]

/-- When the very first poll already shows completion, the loop stops after
one history request. -/
theorem pollLoop_found_first (hist : Nat → Except String JValue) (pid : JValue)
    (i fuel : Nat) (h : JValue) (hfuel : 0 < fuel)
    (hh : hist i = Except.ok h) (hs : historySeen pid h = Except.ok true) :
    pollLoop hist pid i fuel = (PollOut.found h, 1) := by
  cases fuel with
  | zero => omega
  | succ n => simp [pollLoop, hh, hs]

/-- C3: for a validated and successfully submitted job whose history polls
all answer without ever showing the prompt identifier together with a
non-empty outputs section, the handler returns the max-retries envelope
and issues exactly COMFY_POLLING_MAX_RETRIES history requests. -/
theorem handler_poll_budget_exhausted (env : Env) (job : JValue)
    (inputKvs wkvs : List (String × JValue)) (q pid : JValue)
    (hval : validateJob env job = Sum.inr (inputKvs, wkvs))
    (hq : env.queueResult = Except.ok q)
    (hpid : jobLookup q "prompt_id" = Except.ok pid)
    (hall : ∀ i, i < COMFY_POLLING_MAX_RETRIES →
      ∃ h, env.historyOracle i = Except.ok h ∧ historySeen pid h = Except.ok false) :
    (handler env job).1 =
        PResult.ret (errEnv "Max retries reached while waiting for image generation") ∧
      List.countP isHistory (handler env job).2 = COMFY_POLLING_MAX_RETRIES := by
  have hpoll : pollLoop env.historyOracle pid 0 COMFY_POLLING_MAX_RETRIES =
      (PollOut.maxed, COMFY_POLLING_MAX_RETRIES) :=
    pollLoop_maxed env.historyOracle pid COMFY_POLLING_MAX_RETRIES 0
      (fun j hj => by simpa using hall j hj)
  constructor
  · simp [handler, hval, runPipeline, hq, hpid, hpoll]
  · simp [handler, hval, runPipeline, hq, hpid, hpoll, List.countP_append,
      countP_replicate, isHistory, List.countP_cons]

/-- C3 witness: against the stalled environment, the handler stops with the
max-retries envelope after the budgeted number of history requests. -/
theorem handler_poll_budget_exhausted_witness :
    (handler envPollStall jobGood).1 =
        PResult.ret (errEnv "Max retries reached while waiting for image generation") ∧
      List.countP isHistory (handler envPollStall jobGood).2 = COMFY_POLLING_MAX_RETRIES :=
  handler_poll_budget_exhausted envPollStall jobGood
    [("workflow", JValue.obj wkvsW)] wkvsW
    (JValue.obj [("prompt_id", JValue.str "abc")]) (JValue.str "abc")
    rfl rfl rfl (fun i _ => ⟨JValue.obj [], rfl, rfl⟩)

/-- The base64 step only ever appends a b64 effect. -/
theorem postProcessB64_countP (env : Env) (inputKvs : List (String × JValue))
    (localPath url : String) (acc : List (String × JValue)) (tr : List Effect)
    (q : Effect → Bool) (htr : List.countP q tr = 0) (hb : q Effect.b64 = false) :
    List.countP q (postProcessB64 env inputKvs localPath url acc tr).2 = 0 := by
  unfold postProcessB64
  simp only [Bool.not_not]
  by_cases hc : (strContainsSub url "simulated_uploaded/" &&
      job_prop_to_bool inputKvs "return-b64") = true
  · rw [if_pos hc]
    cases env.base64Encode localPath <;>
      simp [List.countP_append, List.countP_cons, htr, hb]
  · rw [if_neg hc]
    simpa using htr

/-- The nudity step only ever emits upload, detect and b64 effects. -/
theorem postProcessNsfw_countP (env : Env) (inputKvs : List (String × JValue))
    (localPath url : String) (q : Effect → Bool)
    (hu : q Effect.upload = false) (hd : q Effect.detect = false) (hb : q Effect.b64 = false) :
    List.countP q (postProcessNsfw env inputKvs localPath url).2 = 0 := by
  unfold postProcessNsfw
  by_cases hn : job_prop_to_bool inputKvs "return-nsfw" = true
  · rw [if_pos hn]
    cases env.detectNudity localPath with
    | error e => simp [List.countP_cons, hu, hd]
    | ok f =>
      exact postProcessB64_countP env inputKvs localPath url _ _ q
        (by simp [List.countP_cons, hu, hd]) hb
  · rw [if_neg hn]
    exact postProcessB64_countP env inputKvs localPath url _ _ q
      (by simp [List.countP_cons, hu]) hb

/-- Post-processing never emits a probe, submission or history effect. -/
theorem postProcess_countP (env : Env) (job : JValue) (inputKvs : List (String × JValue))
    (localPath : String) (q : Effect → Bool)
    (hu : q Effect.upload = false) (hd : q Effect.detect = false) (hb : q Effect.b64 = false) :
    List.countP q (postProcess env job inputKvs localPath).2 = 0 := by
  cases h1 : jobLookup job "id" with
  | error e => simp [postProcess, h1]
  | ok jid =>
    cases h2 : env.uploadImage jid localPath with
    | error e => simp [postProcess, h1, h2, List.countP_cons, hu]
    | ok url =>
      simpa [postProcess, h1, h2] using
        postProcessNsfw_countP env inputKvs localPath url q hu hd hb

/-- Outcome resolution never emits a probe, submission or history effect. -/
theorem finishJob_countP (env : Env) (job : JValue) (inputKvs : List (String × JValue))
    (entry : JValue) (q : Effect → Bool)
    (hu : q Effect.upload = false) (hd : q Effect.detect = false) (hb : q Effect.b64 = false) :
    List.countP q (finishJob env job inputKvs entry).2 = 0 := by
  cases hg : pyGet entry "outputs" with
  | error e => simp [finishJob, hg]
  | ok outputs =>
    cases outputs with
    | obj outKvs =>
      cases hres : resolveImages outKvs (JValue.obj []) with
      | error e => simp [finishJob, hg, hres]
      | ok outputImages =>
        by_cases hef : env.fileExists (COMFY_OUTPUT_PATH ++ "/" ++ pyStr outputImages) = true
        · simpa [finishJob, hg, hres, hef] using
            postProcess_countP env job inputKvs (COMFY_OUTPUT_PATH ++ "/" ++ pyStr outputImages)
              q hu hd hb
        · simp [finishJob, hg, hres, hef]
    | null => simp [finishJob, hg]
    | bool b => simp [finishJob, hg]
    | num n => simp [finishJob, hg]
    | str s => simp [finishJob, hg]
    | arr xs => simp [finishJob, hg]

/-- C7: once a job is validated the handler submits the workflow exactly
once, wrapped under the single prompt key, no matter what the
availability probe returned; and when the submission or the prompt-id
extraction raises, the handler returns the queuing-error envelope with
the underlying cause, without any further submission. -/
theorem handler_submits_once (env : Env) (job : JValue)
    (inputKvs wkvs : List (String × JValue))
    (hval : validateJob env job = Sum.inr (inputKvs, wkvs)) :
    List.countP isSubmit (handler env job).2 = 1 ∧
      Effect.submit (JValue.obj [("prompt", JValue.obj wkvs)]) ∈ (handler env job).2 ∧
      (∀ e, env.queueResult = Except.error e →
        (handler env job).1 = PResult.ret (errEnv ("Error queuing prompt: " ++ e))) := by
  simp only [handler, hval, runPipeline]
  cases hq : env.queueResult with
  | error e0 =>
    refine ⟨?_, ?_, ?_⟩
    · simp [List.countP_append, countP_replicate, isSubmit, List.countP_cons]
    · simp
    · intro e he
      injection he with he
      subst he
      rfl
  | ok queued =>
    cases hpid : jobLookup queued "prompt_id" with
    | error e1 =>
      refine ⟨?_, ?_, ?_⟩
      · simp [hpid, List.countP_append, countP_replicate, isSubmit, List.countP_cons]
      · simp [hpid]
      · intro e he; simp at he
    | ok pid =>
      rcases hp : pollLoop env.historyOracle pid 0 COMFY_POLLING_MAX_RETRIES with ⟨po, c⟩
      cases po with
      | failed e2 =>
        refine ⟨?_, ?_, ?_⟩
        · simp [hpid, hp, List.countP_append, countP_replicate, isSubmit, List.countP_cons]
        · simp [hpid, hp]
        · intro e he; simp at he
      | maxed =>
        refine ⟨?_, ?_, ?_⟩
        · simp [hpid, hp, List.countP_append, countP_replicate, isSubmit, List.countP_cons]
        · simp [hpid, hp]
        · intro e he; simp at he
      | found h =>
        cases hent : historyEntry pid h with
        | error e3 =>
          refine ⟨?_, ?_, ?_⟩
          · simp [hpid, hp, hent, List.countP_append, countP_replicate, isSubmit,
              List.countP_cons]
          · simp [hpid, hp, hent]
          · intro e he; simp at he
        | ok entry =>
          have hfin : List.countP isSubmit (finishJob env job inputKvs entry).2 = 0 :=
            finishJob_countP env job inputKvs entry isSubmit rfl rfl rfl
          refine ⟨?_, ?_, ?_⟩
          · simp [hpid, hp, hent, List.countP_append, countP_replicate, isSubmit,
              List.countP_cons, hfin]
          · simp [hpid, hp, hent]
          · intro e he; simp at he

/-- C7 witness: submission fails against the stub environment, and the
handler returns the queuing-error envelope after exactly one submission
of the wrapped workflow. -/
theorem handler_submits_once_witness :
    List.countP isSubmit (handler envStub jobGood).2 = 1 ∧
      Effect.submit (JValue.obj [("prompt", JValue.obj wkvsW)]) ∈ (handler envStub jobGood).2 ∧
      (∀ e, envStub.queueResult = Except.error e →
        (handler envStub jobGood).1 = PResult.ret (errEnv ("Error queuing prompt: " ++ e))) :=
  handler_submits_once envStub jobGood [("workflow", JValue.obj wkvsW)] wkvsW rfl

/-- C8: when a validated job completes its poll but the resolved artifact
file does not exist on disk, the handler returns the artifact-missing
envelope naming the exact expected path (output root joined with the
resolved filename), and attempts no upload, classification or encoding. -/
theorem handler_artifact_missing (env : Env) (job : JValue)
    (inputKvs wkvs : List (String × JValue)) (q pid h0 entry : JValue)
    (outKvs : List (String × JValue)) (f : JValue)
    (hval : validateJob env job = Sum.inr (inputKvs, wkvs))
    (hq : env.queueResult = Except.ok q)
    (hpid : jobLookup q "prompt_id" = Except.ok pid)
    (hh0 : env.historyOracle 0 = Except.ok h0)
    (hseen : historySeen pid h0 = Except.ok true)
    (hentry : historyEntry pid h0 = Except.ok entry)
    (houts : pyGet entry "outputs" = Except.ok (JValue.obj outKvs))
    (hres : resolveImages outKvs (JValue.obj []) = Except.ok f)
    (hmiss : env.fileExists (COMFY_OUTPUT_PATH ++ "/" ++ pyStr f) = false) :
    (handler env job).1 = PResult.ret (errEnv
        ("image does not exist in the specified output folder: " ++
          (COMFY_OUTPUT_PATH ++ "/" ++ pyStr f))) ∧
      List.countP isUpload (handler env job).2 = 0 ∧
      List.countP isDetect (handler env job).2 = 0 ∧
      List.countP isB64 (handler env job).2 = 0 := by
  have hpoll : pollLoop env.historyOracle pid 0 COMFY_POLLING_MAX_RETRIES =
      (PollOut.found h0, 1) :=
    pollLoop_found_first env.historyOracle pid 0 COMFY_POLLING_MAX_RETRIES h0
      (by norm_num [COMFY_POLLING_MAX_RETRIES]) hh0 hseen
  refine ⟨?_, ?_, ?_, ?_⟩ <;>
    simp [handler, hval, runPipeline, hq, hpid, hpoll, hentry, finishJob, houts, hres, hmiss,
      List.countP_append, countP_replicate, isUpload, isDetect, isB64, List.countP_cons]

/-- C8 witness: the happy-path environment with the artifact removed from
disk yields the artifact-missing envelope and no post-processing. -/
theorem handler_artifact_missing_witness :
    (handler envMissing jobFlags).1 = PResult.ret (errEnv
        ("image does not exist in the specified output folder: " ++
          (COMFY_OUTPUT_PATH ++ "/" ++ pyStr (JValue.str "img1.png")))) ∧
      List.countP isUpload (handler envMissing jobFlags).2 = 0 ∧
      List.countP isDetect (handler envMissing jobFlags).2 = 0 ∧
      List.countP isB64 (handler envMissing jobFlags).2 = 0 :=
  handler_artifact_missing envMissing jobFlags
    [("workflow", JValue.obj wkvsW), ("return-nsfw", JValue.bool true),
     ("return-b64", JValue.bool true)] wkvsW
    (JValue.obj [("prompt_id", JValue.str "abc")]) (JValue.str "abc")
    histW entryW outsObjW (JValue.str "img1.png")
    rfl rfl rfl rfl rfl rfl rfl rfl rfl

/-- When no node carries a non-empty images list, the resolution loop
returns its accumulator unchanged. -/
theorem resolveImages_no_images (outs : List (String × JValue)) (acc : JValue)
    (hall : outs.all (fun kv => nodeHasNoImages kv.2) = true) :
    resolveImages outs acc = Except.ok acc := by
  induction outs with
  | nil => rfl
  | cons kv rest ih =>
    obtain ⟨k, nodeOut⟩ := kv
    rw [List.all_cons, Bool.and_eq_true] at hall
    obtain ⟨h1, h2⟩ := hall
    cases nodeOut with
    | obj nkvs =>
      cases hl : lookup nkvs "images" with
      | none => simp [resolveImages, hl, ih h2]
      | some iv =>
        cases iv with
        | arr imgs =>
          cases imgs with
          | nil => simp [resolveImages, hl, foldImages, ih h2]
          | cons im rest2 => simp [nodeHasNoImages, hl] at h1
        | null => simp [nodeHasNoImages, hl] at h1
        | bool b => simp [nodeHasNoImages, hl] at h1
        | num n => simp [nodeHasNoImages, hl] at h1
        | str s => simp [nodeHasNoImages, hl] at h1
        | obj o => simp [nodeHasNoImages, hl] at h1
    | null => simp [resolveImages, ih h2]
    | bool b => simp [resolveImages, ih h2]
    | num n => simp [resolveImages, ih h2]
    | str s => simp [resolveImages, ih h2]
    | arr xs => simp [resolveImages, ih h2]

/-- C10: when polling detects completion but no output node carries an
images list with at least one entry, no dedicated error is produced: the
resolved filename keeps its initial empty-dict value, the expected path
renders as the output root joined with a brace pair, and when no file of
that name exists the job ends with the artifact-missing envelope naming
exactly that path. -/
theorem handler_no_images_keeps_empty_dict (env : Env) (job : JValue)
    (inputKvs wkvs : List (String × JValue)) (q pid h0 entry : JValue)
    (outKvs : List (String × JValue))
    (hval : validateJob env job = Sum.inr (inputKvs, wkvs))
    (hq : env.queueResult = Except.ok q)
    (hpid : jobLookup q "prompt_id" = Except.ok pid)
    (hh0 : env.historyOracle 0 = Except.ok h0)
    (hseen : historySeen pid h0 = Except.ok true)
    (hentry : historyEntry pid h0 = Except.ok entry)
    (houts : pyGet entry "outputs" = Except.ok (JValue.obj outKvs))
    (hnone : outKvs.all (fun kv => nodeHasNoImages kv.2) = true)
    (hmiss : env.fileExists "/comfyui/output/\x7b\x7d" = false) :
    resolveImages outKvs (JValue.obj []) = Except.ok (JValue.obj []) ∧
      (handler env job).1 = PResult.ret (errEnv
        "image does not exist in the specified output folder: /comfyui/output/\x7b\x7d") := by
  have hres := resolveImages_no_images outKvs (JValue.obj []) hnone
  have hpath : COMFY_OUTPUT_PATH ++ "/" ++ pyStr (JValue.obj []) = "/comfyui/output/\x7b\x7d" := by
    decide
  have hmsg : "image does not exist in the specified output folder: " ++
      "/comfyui/output/\x7b\x7d" =
      "image does not exist in the specified output folder: /comfyui/output/\x7b\x7d" := rfl
  have hpoll : pollLoop env.historyOracle pid 0 COMFY_POLLING_MAX_RETRIES =
      (PollOut.found h0, 1) :=
    pollLoop_found_first env.historyOracle pid 0 COMFY_POLLING_MAX_RETRIES h0
      (by norm_num [COMFY_POLLING_MAX_RETRIES]) hh0 hseen
  refine ⟨hres, ?_⟩
  simp [handler, hval, runPipeline, hq, hpid, hpoll, hentry, finishJob, houts, hres, hpath,
    hmsg, hmiss]

/-- C10 witness: a completed history whose only node has no images ends in
the artifact-missing envelope naming the brace-pair path. -/
theorem handler_no_images_keeps_empty_dict_witness :
    resolveImages outsNoImagesW (JValue.obj []) = Except.ok (JValue.obj []) ∧
      (handler envNoImages jobFlags).1 = PResult.ret (errEnv
        "image does not exist in the specified output folder: /comfyui/output/\x7b\x7d") :=
  handler_no_images_keeps_empty_dict envNoImages jobFlags
    [("workflow", JValue.obj wkvsW), ("return-nsfw", JValue.bool true),
     ("return-b64", JValue.bool true)] wkvsW
    (JValue.obj [("prompt_id", JValue.str "abc")]) (JValue.str "abc")
    histNoImages entryNoImages outsNoImagesW
    rfl rfl rfl rfl rfl rfl rfl rfl rfl

/-- A validation failure that returns (rather than raises) is always an
error envelope. -/
theorem validateJob_inl_ret (env : Env) (job : JValue) (v : JValue)
    (h : validateJob env job = Sum.inl (PResult.ret v)) : ∃ m, v = errEnv m := by
  unfold validateJob at h
  repeat' split at h
  all_goals simp_all
  all_goals exact ⟨_, h.symm⟩

/-- A validated job has a dict input section, and validation recovers
exactly its entries. -/
theorem validateJob_inr_input (env : Env) (job : JValue)
    (inputKvs wkvs : List (String × JValue))
    (h : validateJob env job = Sum.inr (inputKvs, wkvs)) :
    jobLookup job "input" = Except.ok (JValue.obj inputKvs) := by
  unfold validateJob at h
  repeat' split at h
  all_goals simp_all

/-- A returned outcome of the resolution stage is either the
artifact-missing envelope or a post-processing result. -/
theorem finishJob_ret_cases (env : Env) (job : JValue)
    (inputKvs : List (String × JValue)) (entry : JValue) (v : JValue) (ftr : List Effect)
    (h : finishJob env job inputKvs entry = (PResult.ret v, ftr)) :
    (∃ m, v = errEnv m) ∨
      ∃ p, postProcess env job inputKvs p = (PResult.ret v, ftr) := by
  cases hg : pyGet entry "outputs" with
  | error e => simp [finishJob, hg] at h
  | ok outputs =>
    cases outputs with
    | obj outKvs =>
      cases hres : resolveImages outKvs (JValue.obj []) with
      | error e => simp [finishJob, hg, hres] at h
      | ok oi =>
        by_cases hef : env.fileExists (COMFY_OUTPUT_PATH ++ "/" ++ pyStr oi) = true
        · right
          exact ⟨COMFY_OUTPUT_PATH ++ "/" ++ pyStr oi,
            by simpa [finishJob, hg, hres, hef] using h⟩
        · left
          simp [finishJob, hg, hres, hef] at h
          exact ⟨_, h.1.symm⟩
    | null => simp [finishJob, hg] at h
    | bool b => simp [finishJob, hg] at h
    | num n => simp [finishJob, hg] at h
    | str s => simp [finishJob, hg] at h
    | arr xs => simp [finishJob, hg] at h

/-- Every dict the handler returns is an error envelope or the result of
post-processing the resolved artifact of the validated input. -/
theorem handler_ret_shape (env : Env) (job : JValue) (v : JValue) (tr : List Effect)
    (h : handler env job = (PResult.ret v, tr)) :
    (∃ m, v = errEnv m) ∨
      ∃ inputKvs p tro, jobLookup job "input" = Except.ok (JValue.obj inputKvs) ∧
        postProcess env job inputKvs p = (PResult.ret v, tro) := by
  cases hval : validateJob env job with
  | inl r =>
    simp only [handler, hval] at h
    obtain ⟨h1, h2⟩ := Prod.mk.injEq .. ▸ h
    left
    exact validateJob_inl_ret env job v (by rw [hval, h1])
  | inr pr =>
    obtain ⟨inputKvs, wkvs⟩ := pr
    have hin := validateJob_inr_input env job inputKvs wkvs hval
    simp only [handler, hval] at h
    cases hq : env.queueResult with
    | error e0 =>
      simp [runPipeline, hq] at h
      exact Or.inl ⟨_, h.1.symm⟩
    | ok queued =>
      cases hpid : jobLookup queued "prompt_id" with
      | error e1 =>
        simp [runPipeline, hq, hpid] at h
        exact Or.inl ⟨_, h.1.symm⟩
      | ok pid =>
        rcases hp : pollLoop env.historyOracle pid 0 COMFY_POLLING_MAX_RETRIES with ⟨po, c⟩
        cases po with
        | failed e2 =>
          simp [runPipeline, hq, hpid, hp] at h
          exact Or.inl ⟨_, h.1.symm⟩
        | maxed =>
          simp [runPipeline, hq, hpid, hp] at h
          exact Or.inl ⟨_, h.1.symm⟩
        | found hh =>
          cases hent : historyEntry pid hh with
          | error e3 => simp [runPipeline, hq, hpid, hp, hent] at h
          | ok entry =>
            rcases hfin : finishJob env job inputKvs entry with ⟨fr, ftr⟩
            simp only [runPipeline, hq, hpid, hp, hent, hfin] at h
            obtain ⟨h1, h2⟩ := Prod.mk.injEq .. ▸ h
            rcases finishJob_ret_cases env job inputKvs entry v ftr (by rw [hfin, h1]) with
              hm | ⟨p, hpp⟩
            · exact Or.inl hm
            · exact Or.inr ⟨inputKvs, p, ftr, hin, hpp⟩

/-- What post-processing returns: the upload url always, the classifier
findings exactly when the nsfw flag is set, and the base64 copy exactly
when the url carries the simulated-upload sentinel and the b64 flag is
set. -/
theorem postProcess_ret_spec (env : Env) (job : JValue)
    (inputKvs : List (String × JValue)) (p : String) (v : JValue) (tro : List Effect)
    (h : postProcess env job inputKvs p = (PResult.ret v, tro)) :
    ∃ jid url,
      jobLookup job "id" = Except.ok jid ∧
      env.uploadImage jid p = Except.ok url ∧
      vlookup v "url" = some (JValue.str url) ∧
      (job_prop_to_bool inputKvs "return-nsfw" = true →
        ∃ f, env.detectNudity p = Except.ok f ∧ vlookup v "nsfw" = some f) ∧
      (job_prop_to_bool inputKvs "return-nsfw" = false → vlookup v "nsfw" = none) ∧
      ((strContainsSub url "simulated_uploaded/" &&
          job_prop_to_bool inputKvs "return-b64") = true →
        ∃ s, env.base64Encode p = Except.ok s ∧ vlookup v "base64" = some (JValue.str s)) ∧
      ((strContainsSub url "simulated_uploaded/" &&
          job_prop_to_bool inputKvs "return-b64") = false →
        vlookup v "base64" = none) := by
  cases h1 : jobLookup job "id" with
  | error e => simp [postProcess, h1] at h
  | ok jid =>
    cases h2 : env.uploadImage jid p with
    | error e => simp [postProcess, h1, h2] at h
    | ok url =>
      simp only [postProcess, h1, h2] at h
      refine ⟨jid, url, by first | exact h1 | rfl, by first | exact h2 | rfl, ?_⟩
      by_cases hn : job_prop_to_bool inputKvs "return-nsfw" = true
      · rw [postProcessNsfw, if_pos hn] at h
        cases h3 : env.detectNudity p with
        | error e => rw [h3] at h; simp at h
        | ok f =>
          rw [h3] at h
          simp only [postProcessB64, Bool.not_not] at h
          by_cases hb : (strContainsSub url "simulated_uploaded/" &&
              job_prop_to_bool inputKvs "return-b64") = true
          · rw [if_pos hb] at h
            cases h4 : env.base64Encode p with
            | error e => rw [h4] at h; simp at h
            | ok s =>
              rw [h4] at h
              have hv : v = JValue.obj [("url", JValue.str url), ("nsfw", f),
                  ("base64", JValue.str s)] := by
                have h5 := congrArg Prod.fst h
                simp at h5
                first | exact h5.symm | exact h5
              subst hv
              refine ⟨rfl, fun _ => ⟨f, by first | exact h3 | rfl, rfl⟩, ?_, fun _ => ⟨s, by first | exact h4 | rfl, rfl⟩, ?_⟩
              · intro hfalse; rw [hn] at hfalse; simp at hfalse
              · intro hfalse; rw [hb] at hfalse; simp at hfalse
          · rw [if_neg hb] at h
            have hv : v = JValue.obj [("url", JValue.str url), ("nsfw", f)] := by
              have h5 := congrArg Prod.fst h
              simp at h5
              exact h5.symm
            subst hv
            rw [Bool.not_eq_true] at hb
            refine ⟨rfl, fun _ => ⟨f, by first | exact h3 | rfl, rfl⟩, ?_, ?_, fun _ => rfl⟩
            · intro hfalse; rw [hn] at hfalse; simp at hfalse
            · intro htrue; rw [hb] at htrue; simp at htrue
      · rw [postProcessNsfw, if_neg hn] at h
        rw [Bool.not_eq_true] at hn
        simp only [postProcessB64, Bool.not_not] at h
        by_cases hb : (strContainsSub url "simulated_uploaded/" &&
            job_prop_to_bool inputKvs "return-b64") = true
        · rw [if_pos hb] at h
          cases h4 : env.base64Encode p with
          | error e => rw [h4] at h; simp at h
          | ok s =>
            rw [h4] at h
            have hv : v = JValue.obj [("url", JValue.str url), ("base64", JValue.str s)] := by
              have h5 := congrArg Prod.fst h
              simp at h5
              exact h5.symm
            subst hv
            refine ⟨rfl, ?_, fun _ => rfl, fun _ => ⟨s, by first | exact h4 | rfl, rfl⟩, ?_⟩
            · intro htrue; rw [hn] at htrue; simp at htrue
            · intro hfalse; rw [hb] at hfalse; simp at hfalse
        · rw [if_neg hb] at h
          rw [Bool.not_eq_true] at hb
          have hv : v = JValue.obj [("url", JValue.str url)] := by
            have h5 := congrArg Prod.fst h
            simp at h5
            first | exact h5.symm | exact h5
          subst hv
          refine ⟨rfl, ?_, fun _ => rfl, ?_, fun _ => rfl⟩
          · intro htrue; rw [hn] at htrue; simp at htrue
          · intro htrue; rw [hb] at htrue; simp at htrue

/-- C5: every success envelope the handler returns carries the url of the
upload collaborator; the nsfw field is present exactly when the
return-nsfw flag is truthy, and then equals the classifier findings; the
base64 field is present exactly when the return-b64 flag is truthy and
the upload url carries the simulated-upload sentinel, and then equals the
encoded artifact. -/
theorem handler_success_envelope (env : Env) (job : JValue) (v : JValue) (tr : List Effect)
    (h : handler env job = (PResult.ret v, tr))
    (hsucc : isErrorEnvelope v = false) :
    ∃ inputKvs p jid url,
      jobLookup job "input" = Except.ok (JValue.obj inputKvs) ∧
      jobLookup job "id" = Except.ok jid ∧
      env.uploadImage jid p = Except.ok url ∧
      vlookup v "url" = some (JValue.str url) ∧
      (job_prop_to_bool inputKvs "return-nsfw" = true →
        ∃ f, env.detectNudity p = Except.ok f ∧ vlookup v "nsfw" = some f) ∧
      (job_prop_to_bool inputKvs "return-nsfw" = false → vlookup v "nsfw" = none) ∧
      ((strContainsSub url "simulated_uploaded/" &&
          job_prop_to_bool inputKvs "return-b64") = true →
        ∃ s, env.base64Encode p = Except.ok s ∧ vlookup v "base64" = some (JValue.str s)) ∧
      ((strContainsSub url "simulated_uploaded/" &&
          job_prop_to_bool inputKvs "return-b64") = false →
        vlookup v "base64" = none) := by
  rcases handler_ret_shape env job v tr h with ⟨m, rfl⟩ | ⟨inputKvs, p, tro, hin, hpp⟩
  · rw [show isErrorEnvelope (errEnv m) = true from rfl] at hsucc
    cases hsucc
  · obtain ⟨jid, url, hjid, hup, hurl, hnt, hnf, hbt, hbf⟩ :=
      postProcess_ret_spec env job inputKvs p v tro hpp
    exact ⟨inputKvs, p, jid, url, hin, hjid, hup, hurl, hnt, hnf, hbt, hbf⟩

/-- C5 witness: the happy-path run returns a success envelope with the
simulated url, the empty findings and the encoded artifact. -/
theorem handler_success_envelope_witness :
    ∃ inputKvs p jid url,
      jobLookup jobFlags "input" = Except.ok (JValue.obj inputKvs) ∧
      jobLookup jobFlags "id" = Except.ok jid ∧
      envHappy.uploadImage jid p = Except.ok url ∧
      vlookup vHappy "url" = some (JValue.str url) ∧
      (job_prop_to_bool inputKvs "return-nsfw" = true →
        ∃ f, envHappy.detectNudity p = Except.ok f ∧ vlookup vHappy "nsfw" = some f) ∧
      (job_prop_to_bool inputKvs "return-nsfw" = false → vlookup vHappy "nsfw" = none) ∧
      ((strContainsSub url "simulated_uploaded/" &&
          job_prop_to_bool inputKvs "return-b64") = true →
        ∃ s, envHappy.base64Encode p = Except.ok s ∧
          vlookup vHappy "base64" = some (JValue.str s)) ∧
      ((strContainsSub url "simulated_uploaded/" &&
          job_prop_to_bool inputKvs "return-b64") = false →
        vlookup vHappy "base64" = none) :=
  handler_success_envelope envHappy jobFlags vHappy trHappy rfl rfl
